import Mathlib

/-!
Verification development for the allocation and transaction integrity engine
of the budget repository (packages/core/src/services/validation.ts together
with the zod schemas in packages/core/src/models).

Conventions of the shallow embedding:
- JavaScript numbers are modelled as rational numbers; all tolerance
  comparisons in the source are exact comparisons here.
- JavaScript Date values are modelled as integer timestamps; the current
  time (new Date()) is passed as an explicit parameter named now.
- JavaScript Map and Set values are modelled as lookup functions and lists;
  a Set built from a list has the same membership as the list itself.
- ValidationError keeps the field and code of the source errors.  The
  human-readable message strings, the zodErrors payloads, and numeric
  diagnostic entries of the details records are omitted; of the details
  records only the string-valued reference ids (transactionId, strategyId,
  channelId, poolId) are kept, since only those identify which reference an
  integrity error points at.
- Structures keep the fields the validators read.  The createdAt and
  updatedAt timestamps and purely descriptive fields that no validator in
  scope reads are omitted; for typed values the zod z.date() shape check is
  vacuous.
-/

namespace Budget

/-- Error codes of ValidationErrorCodes (services/constants/validation-errors)
that the validators in scope emit. -/

inductive ErrorCode where
  | SCHEMA_VALIDATION_FAILED
  | ALLOCATION_NEGATIVE_AMOUNT
  | ALLOCATION_EMPTY
  | ALLOCATION_DUPLICATE_POOL
  | ALLOCATION_SUM_INVALID
  | ALLOCATION_EXCEEDS_BALANCE
  | TRANSACTION_DESCRIPTION_EMPTY
  | TRANSACTION_AMOUNT_INVALID
  | TRANSACTION_DATE_INVALID
  | TRANSACTION_ALLOCATION_MISMATCH
  | TRANSACTION_CHANNEL_NOT_FOUND
  | TRANSACTION_POOL_NOT_FOUND
  | DATA_INTEGRITY_ORPHANED_REFERENCE
  | DATA_INTEGRITY_INVALID_STATE
  | CREDIT_PAYMENT_INVALID_SOURCE
  | BALANCE_NEGATIVE
  | BALANCE_INCONSISTENT
  | IMPORT_MISSING_REQUIRED_FIELD
  | IMPORT_INVALID_DATE
  | IMPORT_INVALID_AMOUNT
deriving DecidableEq, Repr

/-- ValidationError of services/validation/types.ts.  The message string is
omitted; details keeps only the string-valued reference ids. -/

structure ValidationError where
  field : Option String := none
  code : ErrorCode
  details : List (String × String) := []
deriving DecidableEq, Repr

/-- ValidationResult of services/validation/types.ts.  The optional warnings
array is omitted: none of the validators in scope produces a warning. -/

structure ValidationResult where
  isValid : Bool
  errors : List ValidationError
deriving DecidableEq, Repr

/-- ALLOCATION_TOLERANCE of ValidationService: one cent of absolute
tolerance for dollar amounts. -/

def ALLOCATION_TOLERANCE : ℚ := 1/100

/-- PERCENTAGE_TOLERANCE of ValidationService: tolerance for proportion
sums. -/

def PERCENTAGE_TOLERANCE : ℚ := 1/10000

/-- PoolAllocationItem of models/allocationBreakdown.ts. -/

structure PoolAllocationItem where
  poolId : String
  amount : ℚ
deriving DecidableEq, Repr

/-- AllocationBreakdown of models/allocationBreakdown.ts. -/

structure AllocationBreakdown where
  items : List PoolAllocationItem
  totalAmount : ℚ
deriving DecidableEq, Repr

/-- The reduce over items in the sum refinement of AllocationBreakdownSchema:
items.reduce((sum, item) => sum + item.amount, 0). -/

def sumItemAmounts (items : List PoolAllocationItem) : ℚ :=
  items.foldl (fun sum item => sum + item.amount) 0

/-- Decides success of AllocationBreakdownSchema.safeParse on a typed
breakdown: at least one item, every poolId a non-empty string, the item
amounts sum to the total within strict tolerance 0.01, and no duplicate
poolIds (the source compares the list length with the size of the Set of
poolIds, modelled through List.dedup). -/

def allocationBreakdownSchemaOk (b : AllocationBreakdown) : Bool :=
  decide (1 ≤ b.items.length)
    && b.items.all (fun item => decide (1 ≤ item.poolId.length))
    && decide (|sumItemAmounts b.items - b.totalAmount| < 1/100)
    && decide ((b.items.map (·.poolId)).dedup.length = (b.items.map (·.poolId)).length)

/-- ValidationService.validateAllocationBreakdown. -/

def validateAllocationBreakdown (breakdown : AllocationBreakdown) : ValidationResult :=
  if ¬ allocationBreakdownSchemaOk breakdown then
    { isValid := false, errors := [{ code := .SCHEMA_VALIDATION_FAILED }] }
  else
    let errors :=
      breakdown.items.filterMap (fun item =>
        if item.amount < 0 then
          some { field := some ("items." ++ item.poolId ++ ".amount"),
                 code := .ALLOCATION_NEGATIVE_AMOUNT,
                 details := [("poolId", item.poolId)] }
        else none)
      ++ (if breakdown.totalAmount ≤ 0 then
            [{ field := some "totalAmount", code := .ALLOCATION_NEGATIVE_AMOUNT }]
          else [])
    { isValid := errors.isEmpty, errors := errors }

/-- PoolAllocation of models/allocation.ts: one strategy entry. -/

structure PoolAllocation where
  poolId : String
  proportion : ℚ
deriving DecidableEq, Repr

/-- AllocationStrategy of models/allocation.ts. -/

structure AllocationStrategy where
  id : String
  budgetId : String
  name : String
  description : Option String := none
  effectiveFrom : Int
  allocations : List PoolAllocation
  isActive : Bool
deriving DecidableEq, Repr

/-- The reduce in the sum refinement of AllocationStrategySchema and in the
sum check of validateAllocationStrategy. -/

def sumProportions (allocations : List PoolAllocation) : ℚ :=
  allocations.foldl (fun sum allocation => sum + allocation.proportion) 0

/-- Decides success of PoolAllocationSchema on a typed entry: non-empty
poolId and proportion within 0 and 1. -/

def poolAllocationSchemaOk (a : PoolAllocation) : Bool :=
  decide (1 ≤ a.poolId.length) && decide (0 ≤ a.proportion) && decide (a.proportion ≤ 1)

/-- Decides success of AllocationStrategySchema.safeParse on a typed
strategy: non-empty id, budgetId and name, name at most 100 characters,
description at most 500 characters when present, at least one allocation,
every allocation passing PoolAllocationSchema, the proportions summing to
1.0 within strict tolerance 0.001, and no duplicate poolIds. -/

def allocationStrategySchemaOk (s : AllocationStrategy) : Bool :=
  decide (1 ≤ s.id.length)
    && decide (1 ≤ s.budgetId.length)
    && decide (1 ≤ s.name.length)
    && decide (s.name.length ≤ 100)
    && (match s.description with
        | none => true
        | some d => decide (d.length ≤ 500))
    && decide (1 ≤ s.allocations.length)
    && s.allocations.all poolAllocationSchemaOk
    && decide (|sumProportions s.allocations - 1| < 1/1000)
    && decide ((s.allocations.map (·.poolId)).dedup.length = (s.allocations.map (·.poolId)).length)

/-- ValidationService.validateAllocationStrategy. -/

def validateAllocationStrategy (strategy : AllocationStrategy) : ValidationResult :=
  if ¬ allocationStrategySchemaOk strategy then
    { isValid := false, errors := [{ code := .SCHEMA_VALIDATION_FAILED }] }
  else if strategy.allocations.isEmpty then
    { isValid := false, errors := [{ code := .ALLOCATION_EMPTY }] }
  else
    let poolIds := strategy.allocations.map (·.poolId)
    let duplicateErrors :=
      if poolIds.dedup.length ≠ poolIds.length then
        [{ code := .ALLOCATION_DUPLICATE_POOL : ValidationError }]
      else []
    let totalProportion := sumProportions strategy.allocations
    let sumErrors :=
      if PERCENTAGE_TOLERANCE < |totalProportion - 1| then
        [{ field := some "allocations", code := .ALLOCATION_SUM_INVALID : ValidationError }]
      else []
    let perAllocationErrors :=
      strategy.allocations.flatMap (fun allocation =>
        (if allocation.proportion < 0 then
          [{ field := some ("allocations." ++ allocation.poolId ++ ".proportion"),
             code := .ALLOCATION_NEGATIVE_AMOUNT,
             details := [("poolId", allocation.poolId)] : ValidationError }]
         else [])
        ++ (if 1 < allocation.proportion then
          [{ field := some ("allocations." ++ allocation.poolId ++ ".proportion"),
             code := .ALLOCATION_SUM_INVALID,
             details := [("poolId", allocation.poolId)] : ValidationError }]
         else []))
    let errors := duplicateErrors ++ sumErrors ++ perAllocationErrors
    { isValid := errors.isEmpty, errors := errors }

/-- CategoryReference of models/category.ts, as carried by an expense
transaction.  The integrity validators in scope never read it. -/

structure CategoryReference where
  categoryId : String
  categoryName : String
  subcategoryId : String
  subcategoryName : String
deriving DecidableEq, Repr

/-- IncomeTransaction of models/transaction.ts. -/

structure IncomeTransaction where
  id : String
  budgetId : String
  date : Int
  notes : Option String := none
  amount : ℚ
  channelId : String
  source : String
  allocationBreakdown : AllocationBreakdown
deriving DecidableEq, Repr

/-- ExpenseTransaction of models/transaction.ts. -/

structure ExpenseTransaction where
  id : String
  budgetId : String
  date : Int
  notes : Option String := none
  amount : ℚ
  channelId : String
  category : CategoryReference
  allocationBreakdown : AllocationBreakdown
deriving DecidableEq, Repr

/-- TransferTransaction of models/transaction.ts. -/

structure TransferTransaction where
  id : String
  budgetId : String
  date : Int
  notes : Option String := none
  amount : ℚ
  description : String
  sourceChannelId : String
  sourceAllocation : AllocationBreakdown
  destinationChannelId : String
  destinationAllocation : AllocationBreakdown
deriving DecidableEq, Repr

/-- Transaction of models/transaction.ts: the discriminated union over the
type tag.  The tag is the constructor. -/

inductive Transaction where
  | income (t : IncomeTransaction)
  | expense (t : ExpenseTransaction)
  | transfer (t : TransferTransaction)
deriving DecidableEq, Repr

/-- Decides success of TransferTransactionSchema.safeParse on a typed
transfer: non-empty id and budgetId, notes at most 500 characters when
present, positive amount, description between 1 and 200 characters,
non-empty channel ids, and both allocations passing
AllocationBreakdownSchema. -/

def transferTransactionSchemaOk (t : TransferTransaction) : Bool :=
  decide (1 ≤ t.id.length)
    && decide (1 ≤ t.budgetId.length)
    && (match t.notes with
        | none => true
        | some n => decide (n.length ≤ 500))
    && decide (0 < t.amount)
    && decide (1 ≤ t.description.length)
    && decide (t.description.length ≤ 200)
    && decide (1 ≤ t.sourceChannelId.length)
    && allocationBreakdownSchemaOk t.sourceAllocation
    && decide (1 ≤ t.destinationChannelId.length)
    && allocationBreakdownSchemaOk t.destinationAllocation

/-- The fields of a transaction that ValidationService.validateTransaction
reads.  The source takes a Partial union; every call site in scope passes a
complete typed transaction, so amount and date are always present here. -/

structure BaseTransactionView where
  notes : Option String
  amount : ℚ
  date : Int
deriving DecidableEq, Repr

/-- Projection of a transfer onto the fields validateTransaction reads. -/

def TransferTransaction.base (t : TransferTransaction) : BaseTransactionView :=
  { notes := t.notes, amount := t.amount, date := t.date }

/-- ValidationService.validateTransaction: the generic checks on notes,
amount and date.  The now parameter models the call of new Date().  The
missing-date branch of the source cannot fire on a complete typed
transaction and has no counterpart here. -/

def validateTransaction (now : Int) (transaction : BaseTransactionView) : ValidationResult :=
  let notesErrors :=
    match transaction.notes with
    | none => [{ field := some "notes", code := .TRANSACTION_DESCRIPTION_EMPTY : ValidationError }]
    | some n =>
      if n.trim.length = 0 then
        [{ field := some "notes", code := .TRANSACTION_DESCRIPTION_EMPTY : ValidationError }]
      else []
  let amountErrors :=
    if transaction.amount ≤ 0 then
      [{ field := some "amount", code := .TRANSACTION_AMOUNT_INVALID : ValidationError }]
    else []
  let dateErrors :=
    if now < transaction.date then
      [{ field := some "date", code := .TRANSACTION_DATE_INVALID : ValidationError }]
    else []
  let errors := notesErrors ++ amountErrors ++ dateErrors
  { isValid := errors.isEmpty, errors := errors }

/-- Finset of poolIds mentioned by the items of a breakdown, as built by the
Set constructions inside validateTransferTransaction. -/

def poolIdSet (b : AllocationBreakdown) : Finset String :=
  (b.items.map (·.poolId)).toFinset

/-- ValidationService.validateTransferTransaction.  The source guards the
allocation blocks with presence checks; a typed transfer always carries both
allocations, so those guards are vacuous here. -/

def validateTransferTransaction (now : Int) (transfer : TransferTransaction) : ValidationResult :=
  let schemaErrors :=
    if ¬ transferTransactionSchemaOk transfer then
      [{ code := .SCHEMA_VALIDATION_FAILED : ValidationError }]
    else []
  let basicErrors := (validateTransaction now transfer.base).errors
  let selfTransferErrors :=
    if transfer.sourceChannelId = transfer.destinationChannelId then
      let sourcePoolIds := poolIdSet transfer.sourceAllocation
      let destPoolIds := poolIdSet transfer.destinationAllocation
      let samePoolsSelected :=
        decide (sourcePoolIds.card = destPoolIds.card) && decide (sourcePoolIds ⊆ destPoolIds)
      if samePoolsSelected then
        [{ field := some "channels", code := .DATA_INTEGRITY_INVALID_STATE : ValidationError }]
      else []
    else []
  let sourceMismatchErrors :=
    if ALLOCATION_TOLERANCE < |transfer.sourceAllocation.totalAmount - transfer.amount| then
      [{ field := some "sourceAllocation",
         code := .TRANSACTION_ALLOCATION_MISMATCH : ValidationError }]
    else []
  let sourceBreakdownErrors := (validateAllocationBreakdown transfer.sourceAllocation).errors
  let destinationMismatchErrors :=
    if ALLOCATION_TOLERANCE < |transfer.destinationAllocation.totalAmount - transfer.amount| then
      [{ field := some "destinationAllocation",
         code := .TRANSACTION_ALLOCATION_MISMATCH : ValidationError }]
    else []
  let destinationBreakdownErrors := (validateAllocationBreakdown transfer.destinationAllocation).errors
  let errors := schemaErrors ++ basicErrors ++ selfTransferErrors
    ++ sourceMismatchErrors ++ sourceBreakdownErrors
    ++ destinationMismatchErrors ++ destinationBreakdownErrors
  { isValid := errors.isEmpty, errors := errors }

/-- ValidationService.calculateMaxCreditPayment.  The two Map parameters are
modelled as lookup functions; Map.get(k) ?? 0 becomes (m k).getD 0. -/

def calculateMaxCreditPayment (sourceAllocation : AllocationBreakdown)
    (availableBalances creditDebt : String → Option ℚ) : ℚ :=
  sourceAllocation.items.foldl
    (fun maxPayment item =>
      let availableInPool := (availableBalances item.poolId).getD 0
      let debtInPool := (creditDebt item.poolId).getD 0
      let maxForThisPool := min availableInPool debtInPool
      maxPayment + max 0 maxForThisPool) 0

/-- PoolBalance of models/balance.ts. -/

structure PoolBalance where
  poolId : String
  channelId : String
  amount : ℚ
deriving DecidableEq, Repr

/-- Decides success of PoolBalanceSchema.safeParse on a typed balance:
non-empty poolId and channelId; the amount is an unconstrained number. -/

def poolBalanceSchemaOk (b : PoolBalance) : Bool :=
  decide (1 ≤ b.poolId.length) && decide (1 ≤ b.channelId.length)

/-- The body of the loop of validateBalanceConsistency for one balance: a
schema failure contributes a SCHEMA_VALIDATION_FAILED error and skips the
negative check (the continue of the source); otherwise a strictly negative
amount contributes a BALANCE_NEGATIVE error. -/

def poolBalanceErrors (balance : PoolBalance) : List ValidationError :=
  if ¬ poolBalanceSchemaOk balance then
    [{ code := .SCHEMA_VALIDATION_FAILED : ValidationError }]
  else if balance.amount < 0 then
    [{ field := some "amount", code := .BALANCE_NEGATIVE,
       details := [("poolId", balance.poolId), ("channelId", balance.channelId)] : ValidationError }]
  else []

/-- ValidationService.validateBalanceConsistency.  A balance failing its
schema check contributes one SCHEMA_VALIDATION_FAILED error and the loop
continues with the next balance. -/

def validateBalanceConsistency (balances : List PoolBalance) : ValidationResult :=
  let errors := balances.flatMap poolBalanceErrors
  { isValid := errors.isEmpty, errors := errors }

/-- Pool of models/pool.ts: the fields the integrity checker reads plus its
identifying fields. -/

structure Pool where
  id : String
  budgetId : String
  name : String
  purposeType : String
  isActive : Bool
deriving DecidableEq, Repr

/-- Channel of models/pool.ts: the fields the integrity checker reads plus
its identifying fields. -/

structure Channel where
  id : String
  budgetId : String
  name : String
  channelType : String
  isActive : Bool
deriving DecidableEq, Repr

/-- One DATA_INTEGRITY_ORPHANED_REFERENCE error for a transaction channel
reference. -/

def orphanedChannelError (transactionId channelId : String) : ValidationError :=
  { code := .DATA_INTEGRITY_ORPHANED_REFERENCE,
    details := [("transactionId", transactionId), ("channelId", channelId)] }

/-- One DATA_INTEGRITY_ORPHANED_REFERENCE error for an allocation-item pool
reference of a transaction. -/

def orphanedPoolError (transactionId poolId : String) : ValidationError :=
  { code := .DATA_INTEGRITY_ORPHANED_REFERENCE,
    details := [("transactionId", transactionId), ("poolId", poolId)] }

/-- The pool checks of one allocation inside the transaction loop of
validateBudgetIntegrity: one orphaned-reference error per item whose poolId
is not in the active-pool id set. -/

def orphanedItemErrors (transactionId : String) (poolIds : List String)
    (items : List PoolAllocationItem) : List ValidationError :=
  items.filterMap (fun item =>
    if item.poolId ∈ poolIds then none
    else some (orphanedPoolError transactionId item.poolId))

/-- The body of the transaction loop of
ValidationService.validateBudgetIntegrity, for a single transaction: the
channelId membership check (income and expense carry a channelId key, a
transfer does not), the source and destination channel checks of a
transfer, and the pool membership checks of every allocation item, in
source push order. -/

def budgetTransactionErrors (poolIds channelIds : List String) :
    Transaction → List ValidationError
  | .income t =>
    (if t.channelId ∈ channelIds then [] else [orphanedChannelError t.id t.channelId])
      ++ orphanedItemErrors t.id poolIds t.allocationBreakdown.items
  | .expense t =>
    (if t.channelId ∈ channelIds then [] else [orphanedChannelError t.id t.channelId])
      ++ orphanedItemErrors t.id poolIds t.allocationBreakdown.items
  | .transfer t =>
    (if t.sourceChannelId ∈ channelIds then [] else [orphanedChannelError t.id t.sourceChannelId])
      ++ (if t.destinationChannelId ∈ channelIds then []
          else [orphanedChannelError t.id t.destinationChannelId])
      ++ orphanedItemErrors t.id poolIds t.sourceAllocation.items
      ++ orphanedItemErrors t.id poolIds t.destinationAllocation.items

/-- The Set of active pool ids built at the start of
validateBudgetIntegrity, as a list with the same membership. -/

def activePoolIds (pools : List Pool) : List String :=
  (pools.filter (·.isActive)).map (·.id)

/-- The Set of active channel ids built at the start of
validateBudgetIntegrity, as a list with the same membership. -/

def activeChannelIds (channels : List Channel) : List String :=
  (channels.filter (·.isActive)).map (·.id)

/-- The pool checks of one active strategy inside the strategy loop of
validateBudgetIntegrity: one orphaned-reference error per allocation whose
poolId is not in the active-pool id set. -/

def strategyOrphanErrors (poolIds : List String) (strategy : AllocationStrategy) :
    List ValidationError :=
  strategy.allocations.filterMap (fun allocation =>
    if allocation.poolId ∈ poolIds then none
    else some { code := .DATA_INTEGRITY_ORPHANED_REFERENCE,
                details := [("strategyId", strategy.id), ("poolId", allocation.poolId)] })

/-- ValidationService.validateBudgetIntegrity.  The two Sets of active ids
are modelled as lists with the same membership. -/

def validateBudgetIntegrity (pools : List Pool) (channels : List Channel)
    (transactions : List Transaction)
    (allocationStrategies : List AllocationStrategy) : ValidationResult :=
  let poolIds := activePoolIds pools
  let channelIds := activeChannelIds channels
  let transactionErrors := transactions.flatMap (budgetTransactionErrors poolIds channelIds)
  let strategyErrors :=
    (allocationStrategies.filter (·.isActive)).flatMap (strategyOrphanErrors poolIds)
  let errors := transactionErrors ++ strategyErrors
  { isValid := errors.isEmpty, errors := errors }

/-- ValidationService.validateTransactionIntegrity: the per-transaction
sibling of validateBudgetIntegrity, taking caller-supplied id sets and
emitting TRANSACTION_CHANNEL_NOT_FOUND and TRANSACTION_POOL_NOT_FOUND. -/

def validateTransactionIntegrity (transaction : Transaction)
    (existingPoolIds existingChannelIds : List String) : ValidationResult :=
  let channelError := fun (channelId : String) =>
    { code := .TRANSACTION_CHANNEL_NOT_FOUND,
      details := [("channelId", channelId)] : ValidationError }
  let poolErrors := fun (items : List PoolAllocationItem) =>
    items.filterMap (fun item =>
      if item.poolId ∈ existingPoolIds then none
      else some { code := .TRANSACTION_POOL_NOT_FOUND,
                  details := [("poolId", item.poolId)] : ValidationError })
  let errors :=
    match transaction with
    | .income t =>
      (if t.channelId ∈ existingChannelIds then [] else [channelError t.channelId])
        ++ poolErrors t.allocationBreakdown.items
    | .expense t =>
      (if t.channelId ∈ existingChannelIds then [] else [channelError t.channelId])
        ++ poolErrors t.allocationBreakdown.items
    | .transfer t =>
      (if t.sourceChannelId ∈ existingChannelIds then [] else [channelError t.sourceChannelId])
        ++ (if t.destinationChannelId ∈ existingChannelIds then []
            else [channelError t.destinationChannelId])
        ++ poolErrors t.sourceAllocation.items
        ++ poolErrors t.destinationAllocation.items
  { isValid := errors.isEmpty, errors := errors }

/-- The amount field of a raw import row.  The source types rows as
ImportTransaction but validates them as untyped records: the amount may be
undefined or null (missing), a non-number value (notNum, carrying the raw
text), the numeric NaN, or an ordinary number. -/

inductive ImportAmount where
  | missing
  | notNum (raw : String)
  | nan
  | num (value : ℚ)
deriving DecidableEq, Repr

/-- ImportTransaction of services/validation/types.ts, restricted to the
fields validateImportData reads.  The optional category, subcategory,
channelName and poolName fields are never read by it. -/

structure ImportTransaction where
  date : String
  description : String
  amount : ImportAmount
  importType : String
deriving DecidableEq, Repr

/-- The per-row checks of ValidationService.validateImportData, in source
push order: date present and parseable, description non-empty, amount
present, numeric, non-NaN and non-zero, and type one of income, expense,
transfer.  The dateParses parameter models the JavaScript Date parser
applied in new Date(transaction.date): true when the parse yields a valid
date. -/

def importRowErrors (dateParses : String → Bool) (transaction : ImportTransaction) :
    List ValidationError :=
  (if transaction.date = "" then
    [{ field := some "date", code := .IMPORT_MISSING_REQUIRED_FIELD : ValidationError }]
   else if ¬ dateParses transaction.date then
    [{ field := some "date", code := .IMPORT_INVALID_DATE : ValidationError }]
   else [])
  ++ (if transaction.description.trim.length = 0 then
    [{ field := some "description", code := .IMPORT_MISSING_REQUIRED_FIELD : ValidationError }]
   else [])
  ++ (match transaction.amount with
    | .missing => [{ field := some "amount", code := .IMPORT_MISSING_REQUIRED_FIELD : ValidationError }]
    | .notNum _ => [{ field := some "amount", code := .IMPORT_INVALID_AMOUNT : ValidationError }]
    | .nan => [{ field := some "amount", code := .IMPORT_INVALID_AMOUNT : ValidationError }]
    | .num value =>
      if value = 0 then
        [{ field := some "amount", code := .IMPORT_INVALID_AMOUNT : ValidationError }]
      else [])
  ++ (if transaction.importType = ""
        ∨ ¬ ["income", "expense", "transfer"].contains transaction.importType then
    [{ field := some "type", code := .IMPORT_MISSING_REQUIRED_FIELD : ValidationError }]
   else [])

/-- The output shape of validateImportData. -/

structure ImportValidationOutput where
  valid : List ImportTransaction
  invalid : List (ImportTransaction × List ValidationError)
deriving DecidableEq, Repr

/-- One iteration of the row loop of validateImportData: a row with no
errors is appended to valid, any other row is appended to invalid together
with its full error list. -/

def importRowStep (dateParses : String → Bool) (output : ImportValidationOutput)
    (transaction : ImportTransaction) : ImportValidationOutput :=
  let errors := importRowErrors dateParses transaction
  if errors.isEmpty then
    { output with valid := output.valid ++ [transaction] }
  else
    { output with invalid := output.invalid ++ [(transaction, errors)] }

/-- ValidationService.validateImportData: every row is checked by
importRowErrors and routed by importRowStep. -/

def validateImportData (dateParses : String → Bool)
    (importData : List ImportTransaction) : ImportValidationOutput :=
  importData.foldl (importRowStep dateParses) { valid := [], invalid := [] }

/-! Helper lemmas shared by several claims. -/

/-- Scenario D allocation: source items pool1 for 200 and pool2 for 100. -/
def scenarioDAllocation : AllocationBreakdown :=
  { items := [{ poolId := "pool1", amount := 200 }, { poolId := "pool2", amount := 100 }],
    totalAmount := 300 }

/-- Scenario D available balances: pool1 holds 300 and pool2 holds 50. -/
def scenarioDAvailable : String → Option ℚ := fun poolId =>
  if poolId = "pool1" then some 300 else if poolId = "pool2" then some 50 else none

/-- Scenario D credit debt: pool1 owes 150 and pool2 owes 80. -/
def scenarioDDebt : String → Option ℚ := fun poolId =>
  if poolId = "pool1" then some 150 else if poolId = "pool2" then some 80 else none

/-- The negative-item error produced by validateAllocationBreakdown for one
item. -/
def negativeItemError (item : PoolAllocationItem) : ValidationError :=
  { field := some ("items." ++ item.poolId ++ ".amount"),
    code := .ALLOCATION_NEGATIVE_AMOUNT,
    details := [("poolId", item.poolId)] }

/-- The error produced by validateAllocationBreakdown on a non-positive
total. -/
def negativeTotalError : ValidationError :=
  { field := some "totalAmount", code := .ALLOCATION_NEGATIVE_AMOUNT }

/-- The error list validateAllocationBreakdown accumulates once the schema
check has succeeded. -/
def breakdownSemanticErrors (b : AllocationBreakdown) : List ValidationError :=
  b.items.filterMap (fun item =>
    if item.amount < 0 then some (negativeItemError item) else none)
  ++ (if b.totalAmount ≤ 0 then [negativeTotalError] else [])

/-- Breakdown with no items and a half-cent positive total: its item sum 0
is within the tolerance of its total, it has no duplicate pool ids, no
negative item amount and a positive total, yet the schema check rejects it. -/
def emptyItemsBreakdown : AllocationBreakdown := { items := [], totalAmount := 1/200 }

/-- Scenario A breakdown: pool1 gets 100 and pool2 gets 50 of a 150 total. -/
def scenarioABreakdown : AllocationBreakdown :=
  { items := [{ poolId := "pool1", amount := 100 }, { poolId := "pool2", amount := 50 }],
    totalAmount := 150 }

/-- Scenario B breakdown: pool1 at minus 100, pool2 at 50, total minus 50. -/
def scenarioBBreakdown : AllocationBreakdown :=
  { items := [{ poolId := "pool1", amount := -100 }, { poolId := "pool2", amount := 50 }],
    totalAmount := -50 }

/-- Scenario C strategy: shape-valid fields with allocations pool1 at 0.6
and pool2 at 0.3, so the proportions total 0.9. -/
def scenarioCStrategy : AllocationStrategy :=
  { id := "strategy1", budgetId := "budget1", name := "Test Strategy",
    description := none, effectiveFrom := 0, isActive := true,
    allocations := [{ poolId := "pool1", proportion := 6/10 },
                    { poolId := "pool2", proportion := 3/10 }] }

/-- Strategy inside the tolerance band: proportions 0.5002 and 0.5001 total
1.0003, which passes the schema tolerance 0.001 but fails the validator
tolerance 0.0001. -/
def bandStrategy : AllocationStrategy :=
  { id := "strategy2", budgetId := "budget1", name := "Band Strategy",
    description := none, effectiveFrom := 0, isActive := true,
    allocations := [{ poolId := "pool1", proportion := 5002/10000 },
                    { poolId := "pool2", proportion := 5001/10000 }] }

/-- The invalid-amount import error on field amount. -/
def importInvalidAmountError : ValidationError :=
  { field := some "amount", code := .IMPORT_INVALID_AMOUNT }

/-- The missing-amount import error on field amount. -/
def importMissingAmountError : ValidationError :=
  { field := some "amount", code := .IMPORT_MISSING_REQUIRED_FIELD }

/-- Scenario F row with a non-numeric amount. -/
def scenarioFRow1 : ImportTransaction :=
  { date := "2023-01-15", description := "Test expense",
    amount := .notNum "invalid", importType := "expense" }

/-- Scenario F row with a zero amount. -/
def scenarioFRow2 : ImportTransaction :=
  { date := "2023-01-15", description := "Test expense",
    amount := .num 0, importType := "expense" }

/-- Scenario F row with a NaN amount. -/
def scenarioFRow3 : ImportTransaction :=
  { date := "2023-01-15", description := "Test expense",
    amount := .nan, importType := "expense" }

/-- Channel ids a transaction references, following the specification text:
the channelId of an income or expense, and both channel ids of a transfer. -/
def specChannelRefs : Transaction → List String
  | .income t => [t.channelId]
  | .expense t => [t.channelId]
  | .transfer t => [t.sourceChannelId, t.destinationChannelId]

/-- Pool ids a transaction references through its allocation items,
following the specification text: the breakdown of an income or expense,
and both allocations of a transfer. -/
def specPoolRefs : Transaction → List String
  | .income t => t.allocationBreakdown.items.map (·.poolId)
  | .expense t => t.allocationBreakdown.items.map (·.poolId)
  | .transfer t => t.sourceAllocation.items.map (·.poolId)
      ++ t.destinationAllocation.items.map (·.poolId)

/-- The channel and pool reference ids carried in the details of an
integrity error. -/
def errorRefs (e : ValidationError) : Option String × Option String :=
  (e.details.lookup "channelId", e.details.lookup "poolId")

/-- Correspondence between one error of validateTransactionIntegrity and
one error of the per-transaction portion of validateBudgetIntegrity: same
flagged reference, orphaned-reference code on the budget side, and the
matching per-transaction code on the other side. -/
def correspondsTo (te be : ValidationError) : Prop :=
  be.code = ErrorCode.DATA_INTEGRITY_ORPHANED_REFERENCE
  ∧ errorRefs te = errorRefs be
  ∧ ((te.code = ErrorCode.TRANSACTION_CHANNEL_NOT_FOUND
        ∧ (te.details.lookup "channelId").isSome = true)
     ∨ (te.code = ErrorCode.TRANSACTION_POOL_NOT_FOUND
        ∧ (te.details.lookup "poolId").isSome = true))

/-- Scenario E transfer: same source and destination channel and the same
single pool on both sides. -/
def scenarioETransfer : TransferTransaction :=
  { id := "transfer1", budgetId := "budget1", date := 0, notes := none,
    amount := 200, description := "Transfer to savings",
    sourceChannelId := "checking",
    sourceAllocation := { items := [{ poolId := "pool1", amount := 200 }], totalAmount := 200 },
    destinationChannelId := "checking",
    destinationAllocation :=
      { items := [{ poolId := "pool1", amount := 200 }], totalAmount := 200 } }

/-- Expense referencing a channel and a pool that are not active anywhere. -/
def orphanExpense : ExpenseTransaction :=
  { id := "trans2", budgetId := "budget1", date := 0, notes := none, amount := 25,
    channelId := "ghost-channel",
    category := { categoryId := "food", categoryName := "Food",
                  subcategoryId := "groceries", subcategoryName := "Groceries" },
    allocationBreakdown :=
      { items := [{ poolId := "ghost-pool", amount := 25 }], totalAmount := 25 } }

/-- Income referencing a channel and a pool that are not active anywhere. -/
def orphanIncome : IncomeTransaction :=
  { id := "trans3", budgetId := "budget1", date := 0, notes := none, amount := 40,
    channelId := "ghost-channel", source := "Employer",
    allocationBreakdown :=
      { items := [{ poolId := "ghost-pool", amount := 40 }], totalAmount := 40 } }

/-- Balance of minus 50 on a shape-valid pool and channel pair. -/
def negativeBalance : PoolBalance :=
  { poolId := "pool1", channelId := "channel1", amount := -50 }

/-- Folding addition of a projected value over a list equals the initial
value plus the sum of the projections. -/
theorem foldl_add_eq_add_sum {α : Type} (f : α → ℚ) (l : List α) (init : ℚ) :
    l.foldl (fun acc x => acc + f x) init = init + (l.map f).sum := by
  induction l generalizing init with
  | nil => simp
  | cons x xs ih => simp [ih, add_assoc]

/-- C1: calculateMaxCreditPayment returns exactly the sum, over the source
items, of max(0, min(available, debt)) with absent pools contributing zero,
and on the Scenario D inputs it returns 200. -/

theorem C1_calculateMaxCreditPayment_spec :
    (∀ (sourceAllocation : AllocationBreakdown)
       (availableBalances creditDebt : String → Option ℚ),
      calculateMaxCreditPayment sourceAllocation availableBalances creditDebt
        = (sourceAllocation.items.map (fun item =>
            max 0 (min ((availableBalances item.poolId).getD 0)
                       ((creditDebt item.poolId).getD 0)))).sum)
    ∧ calculateMaxCreditPayment scenarioDAllocation scenarioDAvailable scenarioDDebt = 200 := by
  have key : ∀ (sourceAllocation : AllocationBreakdown)
      (availableBalances creditDebt : String → Option ℚ),
      calculateMaxCreditPayment sourceAllocation availableBalances creditDebt
        = (sourceAllocation.items.map (fun item =>
            max 0 (min ((availableBalances item.poolId).getD 0)
                       ((creditDebt item.poolId).getD 0)))).sum := by
    intro sourceAllocation availableBalances creditDebt
    unfold calculateMaxCreditPayment
    rw [foldl_add_eq_add_sum, zero_add]
  refine ⟨key, ?_⟩
  rw [key]
  simp only [scenarioDAllocation, scenarioDAvailable, scenarioDDebt, List.map_cons,
    List.map_nil, List.sum_cons, List.sum_nil, String.reduceEq, if_true, if_false,
    reduceIte, Option.getD_some]
  norm_num [min_def, max_def]

/-- Membership in a conditional singleton list. -/

theorem mem_ite_singleton {α : Type} {c : Prop} [Decidable c] (e x : α) :
    e ∈ (if c then [x] else ([] : List α)) ↔ c ∧ e = x := by
  split <;> simp_all

/-- Every error of validateAllocationBreakdown is a schema failure or a
negative-amount error. -/

theorem validateAllocationBreakdown_code_mem (b : AllocationBreakdown) (e : ValidationError)
    (he : e ∈ (validateAllocationBreakdown b).errors) :
    e.code = .SCHEMA_VALIDATION_FAILED ∨ e.code = .ALLOCATION_NEGATIVE_AMOUNT := by
  unfold validateAllocationBreakdown at he
  split at he
  · simp only [List.mem_singleton] at he
    subst he
    left
    rfl
  · simp only [List.mem_append] at he
    rcases he with h | h
    · obtain ⟨item, _hi, hsome⟩ := List.mem_filterMap.mp h
      by_cases hneg : item.amount < 0
      · rw [if_pos hneg] at hsome
        cases hsome
        right
        rfl
      · rw [if_neg hneg] at hsome
        cases hsome
    · rw [mem_ite_singleton] at h
      obtain ⟨-, rfl⟩ := h
      right
      rfl

/-- Every error of validateTransaction is a description, amount or date
error. -/

theorem validateTransaction_code_mem (now : Int) (t : BaseTransactionView) (e : ValidationError)
    (he : e ∈ (validateTransaction now t).errors) :
    e.code = .TRANSACTION_DESCRIPTION_EMPTY ∨ e.code = .TRANSACTION_AMOUNT_INVALID
      ∨ e.code = .TRANSACTION_DATE_INVALID := by
  unfold validateTransaction at he
  simp only [List.mem_append] at he
  rcases he with (h | h) | h
  · match hn : t.notes with
    | none =>
      rw [hn] at h
      simp only [List.mem_singleton] at h
      subst h
      left
      rfl
    | some n =>
      rw [hn] at h
      rw [mem_ite_singleton] at h
      obtain ⟨-, rfl⟩ := h
      left
      rfl
  · rw [mem_ite_singleton] at h
    obtain ⟨-, rfl⟩ := h
    right
    left
    rfl
  · rw [mem_ite_singleton] at h
    obtain ⟨-, rfl⟩ := h
    right
    right
    rfl

/-- C4: validateTransferTransaction emits a DATA_INTEGRITY_INVALID_STATE
error exactly when the source and destination channels coincide and the
pool-id sets of the two allocations are equal; with equal channels but
different pool-id sets no such error appears. -/

theorem C4_selfTransfer_invalid_state_iff (now : Int) (transfer : TransferTransaction) :
    (∃ e ∈ (validateTransferTransaction now transfer).errors,
        e.code = ErrorCode.DATA_INTEGRITY_INVALID_STATE)
      ↔ transfer.sourceChannelId = transfer.destinationChannelId
        ∧ poolIdSet transfer.sourceAllocation = poolIdSet transfer.destinationAllocation := by
  constructor
  · rintro ⟨e, he, hcode⟩
    unfold validateTransferTransaction at he
    simp only [List.mem_append] at he
    rcases he with ((((((h | h) | h) | h) | h) | h) | h)
    · rw [mem_ite_singleton] at h
      obtain ⟨-, rfl⟩ := h
      exact absurd hcode (by simp)
    · rcases validateTransaction_code_mem now transfer.base e h with h1 | h1 | h1 <;>
        rw [h1] at hcode <;> exact absurd hcode (by simp)
    · by_cases hch : transfer.sourceChannelId = transfer.destinationChannelId
      · rw [if_pos hch] at h
        refine ⟨hch, ?_⟩
        by_cases hsame :
            (decide ((poolIdSet transfer.sourceAllocation).card
                = (poolIdSet transfer.destinationAllocation).card)
              && decide (poolIdSet transfer.sourceAllocation
                ⊆ poolIdSet transfer.destinationAllocation)) = true
        · simp only [Bool.and_eq_true, decide_eq_true_eq] at hsame
          exact Finset.eq_of_subset_of_card_le hsame.2 (le_of_eq hsame.1.symm)
        · rw [if_neg hsame] at h
          cases h
      · rw [if_neg hch] at h
        cases h
    · rw [mem_ite_singleton] at h
      obtain ⟨-, rfl⟩ := h
      exact absurd hcode (by simp)
    · rcases validateAllocationBreakdown_code_mem transfer.sourceAllocation e h with h1 | h1 <;>
        rw [h1] at hcode <;> exact absurd hcode (by simp)
    · rw [mem_ite_singleton] at h
      obtain ⟨-, rfl⟩ := h
      exact absurd hcode (by simp)
    · rcases validateAllocationBreakdown_code_mem transfer.destinationAllocation e h with h1 | h1 <;>
        rw [h1] at hcode <;> exact absurd hcode (by simp)
  · rintro ⟨hch, hset⟩
    refine ⟨{ field := some "channels", code := .DATA_INTEGRITY_INVALID_STATE }, ?_, rfl⟩
    unfold validateTransferTransaction
    simp only [List.mem_append]
    left; left; left; left; right
    rw [if_pos hch]
    have hsame :
        (decide ((poolIdSet transfer.sourceAllocation).card
            = (poolIdSet transfer.destinationAllocation).card)
          && decide (poolIdSet transfer.sourceAllocation
            ⊆ poolIdSet transfer.destinationAllocation)) = true := by
      rw [hset]
      simp
    rw [if_pos hsame]
    simp

/-- Count of negative-balance errors contributed by one balance. -/

theorem poolBalanceErrors_countP_negative (b : PoolBalance) :
    (poolBalanceErrors b).countP (fun e => decide (e.code = .BALANCE_NEGATIVE))
      = if poolBalanceSchemaOk b && decide (b.amount < 0) then 1 else 0 := by
  unfold poolBalanceErrors
  by_cases hs : poolBalanceSchemaOk b = true <;> by_cases hn : b.amount < 0 <;>
    simp [hs, hn, List.countP_cons]

/-- Count of schema errors contributed by one balance. -/

theorem poolBalanceErrors_countP_schema (b : PoolBalance) :
    (poolBalanceErrors b).countP (fun e => decide (e.code = .SCHEMA_VALIDATION_FAILED))
      = if poolBalanceSchemaOk b then 0 else 1 := by
  unfold poolBalanceErrors
  by_cases hs : poolBalanceSchemaOk b = true <;> by_cases hn : b.amount < 0 <;>
    simp [hs, hn, List.countP_cons]

/-- Length of the error list contributed by one balance. -/

theorem poolBalanceErrors_length (b : PoolBalance) :
    (poolBalanceErrors b).length
      = if !(poolBalanceSchemaOk b) || decide (b.amount < 0) then 1 else 0 := by
  unfold poolBalanceErrors
  by_cases hs : poolBalanceSchemaOk b = true <;> by_cases hn : b.amount < 0 <;>
    simp [hs, hn]

/-- A balance contributes no error exactly when it passes its schema check
and its amount is non-negative. -/

theorem poolBalanceErrors_eq_nil (b : PoolBalance) :
    poolBalanceErrors b = [] ↔ poolBalanceSchemaOk b = true ∧ 0 ≤ b.amount := by
  unfold poolBalanceErrors
  by_cases hs : poolBalanceSchemaOk b = true <;> by_cases hn : b.amount < 0 <;>
    simp_all [not_lt, not_le]

/-- C8: validateBalanceConsistency emits one BALANCE_NEGATIVE error per
shape-valid balance with strictly negative amount (the checker receives no
channel data, so the owning channel type cannot influence this), one
SCHEMA_VALIDATION_FAILED error per shape-invalid balance while the
remaining balances keep being checked, and nothing else: shape-valid
non-negative balances contribute no error, and the batch is valid exactly
when every balance is shape-valid with non-negative amount. -/

theorem C8_validateBalanceConsistency_spec (balances : List PoolBalance) :
    ((validateBalanceConsistency balances).errors.countP
        (fun e => decide (e.code = .BALANCE_NEGATIVE))
      = balances.countP (fun b => poolBalanceSchemaOk b && decide (b.amount < 0)))
    ∧ ((validateBalanceConsistency balances).errors.countP
        (fun e => decide (e.code = .SCHEMA_VALIDATION_FAILED))
      = balances.countP (fun b => !(poolBalanceSchemaOk b)))
    ∧ ((validateBalanceConsistency balances).errors.length
      = balances.countP (fun b => !(poolBalanceSchemaOk b) || decide (b.amount < 0)))
    ∧ ((validateBalanceConsistency balances).isValid = true
        ↔ ∀ b ∈ balances, poolBalanceSchemaOk b = true ∧ 0 ≤ b.amount) := by
  refine ⟨?_, ?_, ?_, ?_⟩
  · simp only [validateBalanceConsistency]
    induction balances with
    | nil => simp
    | cons b bs ih =>
      simp only [List.flatMap_cons, List.countP_append, List.countP_cons, ih,
        poolBalanceErrors_countP_negative]
      by_cases h : (poolBalanceSchemaOk b && decide (b.amount < 0)) = true <;>
        simp [h, Nat.add_comm]
  · simp only [validateBalanceConsistency]
    induction balances with
    | nil => simp
    | cons b bs ih =>
      simp only [List.flatMap_cons, List.countP_append, List.countP_cons, ih,
        poolBalanceErrors_countP_schema]
      by_cases h : poolBalanceSchemaOk b = true <;> simp [h, Nat.add_comm]
  · simp only [validateBalanceConsistency]
    induction balances with
    | nil => simp
    | cons b bs ih =>
      simp only [List.flatMap_cons, List.length_append, List.countP_cons, ih,
        poolBalanceErrors_length]
      by_cases h : (!(poolBalanceSchemaOk b) || decide (b.amount < 0)) = true <;>
        simp [h, Nat.add_comm]
  · simp only [validateBalanceConsistency, List.isEmpty_iff]
    rw [List.flatMap_eq_nil_iff]
    constructor
    · intro h b hb
      exact (poolBalanceErrors_eq_nil b).mp (h b hb)
    · intro h b hb
      exact (poolBalanceErrors_eq_nil b).mpr (h b hb)

/-- The result of validateAllocationBreakdown after a successful schema
check. -/

theorem validateAllocationBreakdown_of_schemaOk (b : AllocationBreakdown)
    (h : allocationBreakdownSchemaOk b = true) :
    validateAllocationBreakdown b =
      { isValid := (breakdownSemanticErrors b).isEmpty,
        errors := breakdownSemanticErrors b } := by
  unfold validateAllocationBreakdown breakdownSemanticErrors negativeItemError negativeTotalError
  simp [h]

/-- C2 counterexample: the empty-items breakdown satisfies every hypothesis
of the claim, yet validateAllocationBreakdown returns a schema failure
instead of a valid result, because AllocationBreakdownSchema also requires
at least one item. -/

theorem C2_counterexample_empty_items :
    |sumItemAmounts emptyItemsBreakdown.items - emptyItemsBreakdown.totalAmount| < 1/100
    ∧ (emptyItemsBreakdown.items.map (·.poolId)).Nodup
    ∧ 0 < emptyItemsBreakdown.totalAmount
    ∧ (∀ item ∈ emptyItemsBreakdown.items, 0 ≤ item.amount)
    ∧ validateAllocationBreakdown emptyItemsBreakdown
        = { isValid := false, errors := [{ code := .SCHEMA_VALIDATION_FAILED }] } := by
  refine ⟨?_, ?_, ?_, ?_, ?_⟩
  · norm_num [sumItemAmounts, emptyItemsBreakdown, abs_lt]
  · simp [emptyItemsBreakdown]
  · norm_num [emptyItemsBreakdown]
  · simp [emptyItemsBreakdown]
  · rfl

/-- C2 (amended): a breakdown with at least one item, all item pool ids
non-empty, item amounts summing to the total strictly within the 0.01
tolerance, no duplicate pool ids, a strictly positive total and no negative
item amount is accepted by validateAllocationBreakdown with an empty error
list. -/

theorem C2_sum_invariant (b : AllocationBreakdown)
    (hnonempty : b.items ≠ [])
    (hids : ∀ item ∈ b.items, 1 ≤ item.poolId.length)
    (hsum : |sumItemAmounts b.items - b.totalAmount| < 1/100)
    (hnodup : (b.items.map (·.poolId)).Nodup)
    (htotal : 0 < b.totalAmount)
    (hamounts : ∀ item ∈ b.items, 0 ≤ item.amount) :
    validateAllocationBreakdown b = { isValid := true, errors := [] } := by
  have hschema : allocationBreakdownSchemaOk b = true := by
    unfold allocationBreakdownSchemaOk
    simp only [Bool.and_eq_true, decide_eq_true_eq, List.all_eq_true]
    refine ⟨⟨⟨?_, ?_⟩, ?_⟩, ?_⟩
    · exact Nat.one_le_iff_ne_zero.mpr (by simpa using hnonempty)
    · intro item hi
      exact hids item hi
    · exact hsum
    · rw [List.dedup_eq_self.mpr hnodup]
  rw [validateAllocationBreakdown_of_schemaOk b hschema]
  have hfm : b.items.filterMap (fun item =>
      if item.amount < 0 then some (negativeItemError item) else none) = [] := by
    rw [List.filterMap_eq_nil_iff]
    intro item hi
    rw [if_neg (not_lt.mpr (hamounts item hi))]
  unfold breakdownSemanticErrors
  rw [hfm, if_neg (not_le.mpr htotal)]
  rfl

/-- Witness for the amended C2 statement on the Scenario A breakdown. -/

theorem C2_sum_invariant_witness :
    validateAllocationBreakdown scenarioABreakdown = { isValid := true, errors := [] } :=
  C2_sum_invariant scenarioABreakdown
    (by simp [scenarioABreakdown])
    (by intro item hi; fin_cases hi <;> decide)
    (by norm_num [scenarioABreakdown, sumItemAmounts])
    (by simp [scenarioABreakdown])
    (by norm_num [scenarioABreakdown])
    (by intro item hi; fin_cases hi <;> norm_num)

/-- Length of the negative-item error list: one error per negative item. -/

theorem negativeItemErrors_length (items : List PoolAllocationItem) :
    (items.filterMap (fun item =>
        if item.amount < 0 then some (negativeItemError item) else none)).length
      = items.countP (fun item => decide (item.amount < 0)) := by
  induction items with
  | nil => rfl
  | cons item rest ih =>
    by_cases h : item.amount < 0 <;>
      simp [List.filterMap_cons, List.countP_cons, h, ih]

/-- Every negative-item error has code ALLOCATION_NEGATIVE_AMOUNT. -/

theorem negativeItemErrors_code (items : List PoolAllocationItem) (e : ValidationError)
    (he : e ∈ items.filterMap (fun item =>
        if item.amount < 0 then some (negativeItemError item) else none)) :
    e.code = .ALLOCATION_NEGATIVE_AMOUNT := by
  obtain ⟨item, _hi, hsome⟩ := List.mem_filterMap.mp he
  by_cases h : item.amount < 0
  · rw [if_pos h] at hsome
    cases hsome
    rfl
  · rw [if_neg h] at hsome
    cases hsome

/-- C7: once the schema check passes, validateAllocationBreakdown
accumulates one ALLOCATION_NEGATIVE_AMOUNT error per negative item plus one
on totalAmount when the total is non-positive, without stopping at the
first violation; each negative item contributes its own named error, the
non-positive total contributes the totalAmount error, and the breakdown is
valid exactly when no item is negative and the total is positive. -/

theorem C7_negative_amount_accumulation (b : AllocationBreakdown)
    (hschema : allocationBreakdownSchemaOk b = true) :
    ((validateAllocationBreakdown b).errors.countP
        (fun e => decide (e.code = .ALLOCATION_NEGATIVE_AMOUNT))
      = b.items.countP (fun item => decide (item.amount < 0))
          + (if b.totalAmount ≤ 0 then 1 else 0))
    ∧ ((validateAllocationBreakdown b).errors.length
      = b.items.countP (fun item => decide (item.amount < 0))
          + (if b.totalAmount ≤ 0 then 1 else 0))
    ∧ (∀ item ∈ b.items, item.amount < 0 →
        negativeItemError item ∈ (validateAllocationBreakdown b).errors)
    ∧ (b.totalAmount ≤ 0 →
        negativeTotalError ∈ (validateAllocationBreakdown b).errors)
    ∧ ((validateAllocationBreakdown b).isValid = true
        ↔ (∀ item ∈ b.items, 0 ≤ item.amount) ∧ 0 < b.totalAmount) := by
  rw [validateAllocationBreakdown_of_schemaOk b hschema]
  have hcodes : ∀ e ∈ breakdownSemanticErrors b, e.code = .ALLOCATION_NEGATIVE_AMOUNT := by
    intro e he
    unfold breakdownSemanticErrors at he
    rcases List.mem_append.mp he with h | h
    · exact negativeItemErrors_code b.items e h
    · rw [mem_ite_singleton] at h
      rw [h.2]
      rfl
  have hlen : (breakdownSemanticErrors b).length
      = b.items.countP (fun item => decide (item.amount < 0))
        + (if b.totalAmount ≤ 0 then 1 else 0) := by
    unfold breakdownSemanticErrors
    rw [List.length_append, negativeItemErrors_length]
    by_cases h : b.totalAmount ≤ 0 <;> simp [h]
  refine ⟨?_, hlen, ?_, ?_, ?_⟩
  · rw [← hlen]
    exact List.countP_eq_length.mpr (fun e he => decide_eq_true (hcodes e he))
  · intro item hi hneg
    unfold breakdownSemanticErrors
    exact List.mem_append.mpr (Or.inl
      (List.mem_filterMap.mpr ⟨item, hi, by rw [if_pos hneg]⟩))
  · intro htot
    unfold breakdownSemanticErrors
    exact List.mem_append.mpr (Or.inr (by rw [if_pos htot]; exact List.mem_singleton.mpr rfl))
  · simp only [List.isEmpty_iff]
    unfold breakdownSemanticErrors
    rw [List.append_eq_nil]
    constructor
    · rintro ⟨hfm, hite⟩
      constructor
      · intro item hi
        by_contra hneg
        have : negativeItemError item ∈ ([] : List ValidationError) := by
          rw [← hfm]
          exact List.mem_filterMap.mpr ⟨item, hi, by rw [if_pos (not_le.mp hneg)]⟩
        cases this
      · by_contra htot
        rw [if_pos (not_lt.mp htot)] at hite
        cases hite
    · rintro ⟨hitems, htot⟩
      constructor
      · rw [List.filterMap_eq_nil_iff]
        intro item hi
        rw [if_neg (not_lt.mpr (hitems item hi))]
      · rw [if_neg (not_le.mpr htot)]

/-- Witness for C7 on the Scenario B breakdown: it passes the schema check,
and the result is invalid with both the items.pool1.amount error and the
totalAmount error present. -/

theorem C7_negative_amount_accumulation_witness :
    allocationBreakdownSchemaOk scenarioBBreakdown = true
    ∧ negativeItemError { poolId := "pool1", amount := -100 }
        ∈ (validateAllocationBreakdown scenarioBBreakdown).errors
    ∧ negativeTotalError ∈ (validateAllocationBreakdown scenarioBBreakdown).errors
    ∧ (validateAllocationBreakdown scenarioBBreakdown).isValid = false := by
  have hschema : allocationBreakdownSchemaOk scenarioBBreakdown = true := by
    unfold allocationBreakdownSchemaOk scenarioBBreakdown sumItemAmounts
    norm_num [abs_lt]
    decide
  have h := C7_negative_amount_accumulation scenarioBBreakdown hschema
  refine ⟨hschema, ?_, ?_, ?_⟩
  · exact h.2.2.1 { poolId := "pool1", amount := -100 } (by simp [scenarioBBreakdown]) (by norm_num)
  · exact h.2.2.2.1 (by norm_num [scenarioBBreakdown])
  · have hiff := h.2.2.2.2
    rcases hval : (validateAllocationBreakdown scenarioBBreakdown).isValid with _ | _
    · rfl
    · exfalso
      have := (hiff.mp hval).1 { poolId := "pool1", amount := -100 } (by simp [scenarioBBreakdown])
      norm_num at this

/-- The components of a successful AllocationStrategySchema check that the
later branches of validateAllocationStrategy re-test. -/

theorem allocationStrategySchemaOk_parts (s : AllocationStrategy)
    (h : allocationStrategySchemaOk s = true) :
    1 ≤ s.allocations.length
    ∧ (∀ a ∈ s.allocations, 0 ≤ a.proportion ∧ a.proportion ≤ 1)
    ∧ |sumProportions s.allocations - 1| < 1/1000
    ∧ (s.allocations.map (·.poolId)).dedup.length = (s.allocations.map (·.poolId)).length := by
  unfold allocationStrategySchemaOk at h
  simp only [Bool.and_eq_true, decide_eq_true_eq, List.all_eq_true] at h
  obtain ⟨⟨⟨⟨⟨⟨⟨⟨_, _⟩, _⟩, _⟩, _⟩, hlen⟩, hall⟩, hsum⟩, hdedup⟩ := h
  refine ⟨hlen, ?_, hsum, hdedup⟩
  intro a ha
  have := hall a ha
  unfold poolAllocationSchemaOk at this
  simp only [Bool.and_eq_true, decide_eq_true_eq] at this
  exact ⟨this.1.2, this.2⟩

/-- The result of validateAllocationStrategy after a successful schema
check: only the aggregate sum check can still fire. -/

theorem validateAllocationStrategy_of_schemaOk (s : AllocationStrategy)
    (h : allocationStrategySchemaOk s = true) :
    validateAllocationStrategy s =
      if PERCENTAGE_TOLERANCE < |sumProportions s.allocations - 1| then
        { isValid := false,
          errors := [{ field := some "allocations", code := .ALLOCATION_SUM_INVALID }] }
      else { isValid := true, errors := [] } := by
  obtain ⟨hlen, hrange, _hsum, hdedup⟩ := allocationStrategySchemaOk_parts s h
  have hne : s.allocations.isEmpty = false := by
    cases hs : s.allocations with
    | nil => rw [hs] at hlen; cases hlen
    | cons a rest => rfl
  unfold validateAllocationStrategy
  rw [if_neg (by simp [h]), if_neg (by simp [hne])]
  have hdup : (if (s.allocations.map (·.poolId)).dedup.length
      ≠ (s.allocations.map (·.poolId)).length then
        [{ code := ErrorCode.ALLOCATION_DUPLICATE_POOL : ValidationError }]
      else []) = [] := by
    rw [if_neg]
    simp [hdedup]
  have hper : s.allocations.flatMap (fun allocation =>
      (if allocation.proportion < 0 then
        [{ field := some ("allocations." ++ allocation.poolId ++ ".proportion"),
           code := ErrorCode.ALLOCATION_NEGATIVE_AMOUNT,
           details := [("poolId", allocation.poolId)] : ValidationError }]
       else [])
      ++ (if 1 < allocation.proportion then
        [{ field := some ("allocations." ++ allocation.poolId ++ ".proportion"),
           code := ErrorCode.ALLOCATION_SUM_INVALID,
           details := [("poolId", allocation.poolId)] : ValidationError }]
       else [])) = [] := by
    rw [List.flatMap_eq_nil_iff]
    intro a ha
    rw [if_neg (not_lt.mpr (hrange a ha).1), if_neg (not_lt.mpr (hrange a ha).2)]
    rfl
  simp only [hdup, hper, List.nil_append, List.append_nil]
  by_cases htol : PERCENTAGE_TOLERANCE < |sumProportions s.allocations - 1| <;>
    simp [htol]

/-- C3 evaluation at the Scenario C strategy: the strategy schema itself
rejects the 0.9 proportion total (its own tolerance is 0.001), so
validateAllocationStrategy returns a single SCHEMA_VALIDATION_FAILED error
and no ALLOCATION_SUM_INVALID error, contradicting the claim and the test
suite. -/

theorem C3_scenarioC_schema_failure :
    validateAllocationStrategy scenarioCStrategy
      = { isValid := false, errors := [{ code := .SCHEMA_VALIDATION_FAILED }] }
    ∧ ∀ e ∈ (validateAllocationStrategy scenarioCStrategy).errors,
        e.code ≠ ErrorCode.ALLOCATION_SUM_INVALID := by
  have hsum : sumProportions scenarioCStrategy.allocations = 9/10 := by
    norm_num [sumProportions, scenarioCStrategy]
  have habs : ¬ (|sumProportions scenarioCStrategy.allocations - 1| < 1/1000) := by
    rw [hsum]
    norm_num [abs_lt]
  have hschema : allocationStrategySchemaOk scenarioCStrategy = false := by
    unfold allocationStrategySchemaOk
    rw [decide_eq_false habs]
    simp
  have heq : validateAllocationStrategy scenarioCStrategy
      = { isValid := false, errors := [{ code := .SCHEMA_VALIDATION_FAILED }] } := by
    unfold validateAllocationStrategy
    rw [if_pos (by simp [hschema])]
  refine ⟨heq, ?_⟩
  rw [heq]
  intro e he
  simp only [List.mem_singleton] at he
  subst he
  simp

/-- C10: the ALLOCATION_EMPTY, ALLOCATION_DUPLICATE_POOL and per-allocation
ALLOCATION_NEGATIVE_AMOUNT and ALLOCATION_SUM_INVALID branches of
validateAllocationStrategy are unreachable: no result ever carries those
codes (any ALLOCATION_SUM_INVALID error carries the aggregate field
allocations), a schema failure always yields the single
SCHEMA_VALIDATION_FAILED error, and an ALLOCATION_SUM_INVALID error occurs
exactly when the schema passed and the proportion sum deviates from 1 by
more than 0.0001, which confines it to deviations strictly between 0.0001
and 0.001. -/

theorem C10_unreachable_branches (strategy : AllocationStrategy) :
    (∀ e ∈ (validateAllocationStrategy strategy).errors,
        e.code ≠ ErrorCode.ALLOCATION_EMPTY
        ∧ e.code ≠ ErrorCode.ALLOCATION_DUPLICATE_POOL
        ∧ e.code ≠ ErrorCode.ALLOCATION_NEGATIVE_AMOUNT
        ∧ (e.code = ErrorCode.ALLOCATION_SUM_INVALID → e.field = some "allocations"))
    ∧ ((∃ e ∈ (validateAllocationStrategy strategy).errors,
          e.code = ErrorCode.ALLOCATION_SUM_INVALID)
        ↔ allocationStrategySchemaOk strategy = true
          ∧ PERCENTAGE_TOLERANCE < |sumProportions strategy.allocations - 1|)
    ∧ (allocationStrategySchemaOk strategy = false →
        validateAllocationStrategy strategy
          = { isValid := false, errors := [{ code := .SCHEMA_VALIDATION_FAILED }] })
    ∧ ((∃ e ∈ (validateAllocationStrategy strategy).errors,
          e.code = ErrorCode.ALLOCATION_SUM_INVALID) →
        1/10000 < |sumProportions strategy.allocations - 1|
        ∧ |sumProportions strategy.allocations - 1| < 1/1000) := by
  have hfail : allocationStrategySchemaOk strategy = false →
      validateAllocationStrategy strategy
        = { isValid := false, errors := [{ code := .SCHEMA_VALIDATION_FAILED }] } := by
    intro hs
    unfold validateAllocationStrategy
    rw [if_pos (by simp [hs])]
  by_cases hs : allocationStrategySchemaOk strategy = true
  · have heq := validateAllocationStrategy_of_schemaOk strategy hs
    have hband := (allocationStrategySchemaOk_parts strategy hs).2.2.1
    by_cases htol : PERCENTAGE_TOLERANCE < |sumProportions strategy.allocations - 1|
    · rw [if_pos htol] at heq
      refine ⟨?_, ?_, ?_, ?_⟩
      · rw [heq]
        intro e he
        simp only [List.mem_singleton] at he
        subst he
        simp
      · rw [heq]
        simp only [List.mem_singleton]
        constructor
        · intro _
          exact ⟨hs, htol⟩
        · intro _
          exact ⟨_, rfl, rfl⟩
      · intro hcontra
        rw [hs] at hcontra
        cases hcontra
      · intro _
        exact ⟨htol, hband⟩
    · rw [if_neg htol] at heq
      refine ⟨?_, ?_, ?_, ?_⟩
      · rw [heq]
        intro e he
        cases he
      · rw [heq]
        simp only [List.not_mem_nil]
        constructor
        · rintro ⟨e, he, -⟩
          cases he
        · rintro ⟨-, hcontra⟩
          exact absurd hcontra htol
      · intro hcontra
        rw [hs] at hcontra
        cases hcontra
      · rw [heq]
        rintro ⟨e, he, -⟩
        cases he
  · have hs' : allocationStrategySchemaOk strategy = false := by
      cases h : allocationStrategySchemaOk strategy with
      | false => rfl
      | true => exact absurd h hs
    have heq := hfail hs'
    refine ⟨?_, ?_, fun _ => heq, ?_⟩
    · rw [heq]
      intro e he
      simp only [List.mem_singleton] at he
      subst he
      simp
    · rw [heq]
      constructor
      · rintro ⟨e, he, hcode⟩
        simp only [List.mem_singleton] at he
        subst he
        cases hcode
      · rintro ⟨hcontra, -⟩
        rw [hcontra] at hs'
        cases hs'
    · rw [heq]
      rintro ⟨e, he, hcode⟩
      simp only [List.mem_singleton] at he
      subst he
      cases hcode

/-- Witness for C10: the band strategy passes the schema and receives an
aggregate ALLOCATION_SUM_INVALID error. -/

theorem C10_unreachable_branches_witness :
    ∃ e ∈ (validateAllocationStrategy bandStrategy).errors,
      e.code = ErrorCode.ALLOCATION_SUM_INVALID := by
  have hsum : sumProportions bandStrategy.allocations = 10003/10000 := by
    norm_num [sumProportions, bandStrategy]
  have hschema : allocationStrategySchemaOk bandStrategy = true := by
    unfold allocationStrategySchemaOk bandStrategy poolAllocationSchemaOk
    norm_num [abs_lt, sumProportions]
    decide
  refine (C10_unreachable_branches bandStrategy).2.1.mpr ⟨hschema, ?_⟩
  rw [hsum]
  have h3 : (10003/10000 : ℚ) - 1 = 3/10000 := by norm_num
  rw [h3, abs_of_pos (by norm_num)]
  norm_num [PERCENTAGE_TOLERANCE]

/-- Unfolded form of the fold inside validateImportData: rows with no
errors are appended to valid in order, the rest to invalid with their error
lists. -/

theorem validateImportData_foldl (dateParses : String → Bool)
    (importData : List ImportTransaction) (acc : ImportValidationOutput) :
    importData.foldl (importRowStep dateParses) acc
      = { valid := acc.valid
            ++ importData.filter (fun t => (importRowErrors dateParses t).isEmpty),
          invalid := acc.invalid
            ++ (importData.filter (fun t => !(importRowErrors dateParses t).isEmpty)).map
                (fun t => (t, importRowErrors dateParses t)) } := by
  induction importData generalizing acc with
  | nil => simp
  | cons t rest ih =>
    rw [List.foldl_cons]
    by_cases h : (importRowErrors dateParses t).isEmpty
    · have hstep : importRowStep dateParses acc t = { acc with valid := acc.valid ++ [t] } := by
        unfold importRowStep
        rw [if_pos h]
      rw [hstep, ih]
      simp [List.filter_cons, h]
    · have hstep : importRowStep dateParses acc t
          = { acc with invalid := acc.invalid ++ [(t, importRowErrors dateParses t)] } := by
        unfold importRowStep
        rw [if_neg h]
      rw [hstep, ih]
      simp [List.filter_cons, h]

/-- Characterization of the amount errors of one import row: the
invalid-amount error appears exactly for a present but non-numeric, NaN or
zero amount, and the missing-amount error exactly for an absent amount. -/

theorem importRowErrors_amount_iff (dateParses : String → Bool) (t : ImportTransaction) :
    (importInvalidAmountError ∈ importRowErrors dateParses t
      ↔ (∃ raw, t.amount = .notNum raw) ∨ t.amount = .nan ∨ t.amount = .num 0)
    ∧ (importMissingAmountError ∈ importRowErrors dateParses t
      ↔ t.amount = .missing) := by
  constructor
  · unfold importRowErrors importInvalidAmountError
    simp only [List.mem_append]
    constructor
    · rintro (((hd | hdesc) | ham) | hty)
      · split at hd
        · simp_all
        · split at hd <;> simp_all
      · split at hdesc <;> simp_all
      · cases hamount : t.amount with
        | missing => rw [hamount] at ham; simp_all
        | notNum raw => exact Or.inl ⟨raw, rfl⟩
        | nan => exact Or.inr (Or.inl rfl)
        | num v =>
          rw [hamount] at ham
          split at ham <;> simp_all
      · split at hty <;> simp_all
    · intro h
      refine Or.inl (Or.inr ?_)
      rcases h with ⟨raw, hraw⟩ | hnan | hzero
      · rw [hraw]
        simp
      · rw [hnan]
        simp
      · rw [hzero]
        simp
  · unfold importRowErrors importMissingAmountError
    simp only [List.mem_append]
    constructor
    · rintro (((hd | hdesc) | ham) | hty)
      · split at hd
        · simp_all
        · split at hd <;> simp_all
      · split at hdesc <;> simp_all
      · cases hamount : t.amount with
        | missing => rfl
        | notNum raw => rw [hamount] at ham; simp_all
        | nan => rw [hamount] at ham; simp_all
        | num v =>
          rw [hamount] at ham
          split at ham <;> simp_all
      · split at hty <;> simp_all
    · intro h
      rw [h]
      simp

/-- C9: validateImportData evaluates every row, splitting the batch into
the rows with no error, in order, and the remaining rows paired with their
full error lists; a row whose amount is present but non-numeric or NaN, or
equal to zero, carries the IMPORT_INVALID_AMOUNT error on field amount,
and a row with a missing amount carries IMPORT_MISSING_REQUIRED_FIELD on
field amount; the three Scenario F rows all land in invalid, each with the
IMPORT_INVALID_AMOUNT error on field amount. -/

theorem C9_import_amount_validation (dateParses : String → Bool)
    (importData : List ImportTransaction) :
    ((validateImportData dateParses importData).valid
        = importData.filter (fun t => (importRowErrors dateParses t).isEmpty))
    ∧ ((validateImportData dateParses importData).invalid
        = (importData.filter (fun t => !(importRowErrors dateParses t).isEmpty)).map
            (fun t => (t, importRowErrors dateParses t)))
    ∧ (∀ t : ImportTransaction,
        (importInvalidAmountError ∈ importRowErrors dateParses t
          ↔ (∃ raw, t.amount = .notNum raw) ∨ t.amount = .nan ∨ t.amount = .num 0)
        ∧ (importMissingAmountError ∈ importRowErrors dateParses t
          ↔ t.amount = .missing))
    ∧ ((validateImportData (fun _ => true)
          [scenarioFRow1, scenarioFRow2, scenarioFRow3]).valid = []
        ∧ (validateImportData (fun _ => true)
            [scenarioFRow1, scenarioFRow2, scenarioFRow3]).invalid.map Prod.fst
          = [scenarioFRow1, scenarioFRow2, scenarioFRow3]
        ∧ ∀ p ∈ (validateImportData (fun _ => true)
            [scenarioFRow1, scenarioFRow2, scenarioFRow3]).invalid,
            importInvalidAmountError ∈ p.2) := by
  have hmem1 : importInvalidAmountError ∈ importRowErrors (fun _ => true) scenarioFRow1 :=
    (importRowErrors_amount_iff (fun _ => true) scenarioFRow1).1.mpr (Or.inl ⟨"invalid", rfl⟩)
  have hmem2 : importInvalidAmountError ∈ importRowErrors (fun _ => true) scenarioFRow2 :=
    (importRowErrors_amount_iff (fun _ => true) scenarioFRow2).1.mpr (Or.inr (Or.inr rfl))
  have hmem3 : importInvalidAmountError ∈ importRowErrors (fun _ => true) scenarioFRow3 :=
    (importRowErrors_amount_iff (fun _ => true) scenarioFRow3).1.mpr (Or.inr (Or.inl rfl))
  have hne1 : (importRowErrors (fun _ => true) scenarioFRow1).isEmpty = false :=
    List.isEmpty_eq_false.mpr (List.ne_nil_of_mem hmem1)
  have hne2 : (importRowErrors (fun _ => true) scenarioFRow2).isEmpty = false :=
    List.isEmpty_eq_false.mpr (List.ne_nil_of_mem hmem2)
  have hne3 : (importRowErrors (fun _ => true) scenarioFRow3).isEmpty = false :=
    List.isEmpty_eq_false.mpr (List.ne_nil_of_mem hmem3)
  refine ⟨?_, ?_, importRowErrors_amount_iff dateParses, ?_, ?_, ?_⟩
  · unfold validateImportData
    rw [validateImportData_foldl]
    simp
  · unfold validateImportData
    rw [validateImportData_foldl]
    simp
  · unfold validateImportData
    rw [validateImportData_foldl]
    simp [List.filter_cons, hne1, hne2, hne3]
  · unfold validateImportData
    rw [validateImportData_foldl]
    simp [List.filter_cons, hne1, hne2, hne3]
  · unfold validateImportData
    rw [validateImportData_foldl]
    simp only [List.filter_cons, hne1, hne2, hne3, Bool.not_false, if_true, List.nil_append,
      List.filter_nil, List.map_cons, List.map_nil, List.mem_cons, List.not_mem_nil, or_false]
    rintro p (rfl | rfl | rfl)
    · exact hmem1
    · exact hmem2
    · exact hmem3

/-- Every orphaned-item error has the orphaned-reference code. -/

theorem orphanedItemErrors_code (txId : String) (P : List String)
    (items : List PoolAllocationItem) (e : ValidationError)
    (he : e ∈ orphanedItemErrors txId P items) :
    e.code = .DATA_INTEGRITY_ORPHANED_REFERENCE := by
  obtain ⟨item, _hi, hsome⟩ := List.mem_filterMap.mp he
  by_cases h : item.poolId ∈ P
  · rw [if_pos h] at hsome
    cases hsome
  · rw [if_neg h] at hsome
    cases hsome
    rfl

/-- Length of the orphaned-item error list: one error per item whose pool
id is absent from the active set. -/

theorem orphanedItemErrors_length (txId : String) (P : List String)
    (items : List PoolAllocationItem) :
    (orphanedItemErrors txId P items).length
      = (items.map (·.poolId)).countP (fun p => decide (p ∉ P)) := by
  unfold orphanedItemErrors
  induction items with
  | nil => rfl
  | cons i rest ih =>
    rw [List.map_cons, List.filterMap_cons, List.countP_cons]
    by_cases h : i.poolId ∈ P
    · rw [if_pos h]
      simp [h, ih]
    · rw [if_neg h]
      simp [h, ih]

/-- The orphaned-item error list is empty exactly when every item pool id
is in the active set. -/

theorem orphanedItemErrors_eq_nil (txId : String) (P : List String)
    (items : List PoolAllocationItem) :
    orphanedItemErrors txId P items = [] ↔ ∀ item ∈ items, item.poolId ∈ P := by
  unfold orphanedItemErrors
  rw [List.filterMap_eq_nil_iff]
  constructor
  · intro h item hi
    by_contra hmem
    have := h item hi
    rw [if_neg hmem] at this
    cases this
  · intro h item hi
    rw [if_pos (h item hi)]

/-- Every error of the per-transaction loop body of validateBudgetIntegrity
has the orphaned-reference code. -/

theorem budgetTransactionErrors_code (P C : List String) (t : Transaction)
    (e : ValidationError) (he : e ∈ budgetTransactionErrors P C t) :
    e.code = .DATA_INTEGRITY_ORPHANED_REFERENCE := by
  cases t with
  | income t =>
    rcases List.mem_append.mp he with h | h
    · split at h
      · cases h
      · simp only [List.mem_singleton] at h
        subst h
        rfl
    · exact orphanedItemErrors_code t.id P t.allocationBreakdown.items e h
  | expense t =>
    rcases List.mem_append.mp he with h | h
    · split at h
      · cases h
      · simp only [List.mem_singleton] at h
        subst h
        rfl
    · exact orphanedItemErrors_code t.id P t.allocationBreakdown.items e h
  | transfer t =>
    rcases List.mem_append.mp he with h | h
    · rcases List.mem_append.mp h with h1 | h1
      · rcases List.mem_append.mp h1 with h2 | h2 <;>
        · split at h2
          · cases h2
          · simp only [List.mem_singleton] at h2
            subst h2
            rfl
      · exact orphanedItemErrors_code t.id P t.sourceAllocation.items e h1
    · exact orphanedItemErrors_code t.id P t.destinationAllocation.items e h

/-- Length of the per-transaction loop body of validateBudgetIntegrity: one
error per missing channel reference plus one per missing pool reference. -/

theorem budgetTransactionErrors_length (P C : List String) (t : Transaction) :
    (budgetTransactionErrors P C t).length
      = (specChannelRefs t).countP (fun c => decide (c ∉ C))
        + (specPoolRefs t).countP (fun p => decide (p ∉ P)) := by
  cases t with
  | income t =>
    simp only [budgetTransactionErrors, specChannelRefs, specPoolRefs, List.length_append,
      orphanedItemErrors_length, List.countP_cons, List.countP_nil]
    by_cases h : t.channelId ∈ C <;> simp [h, Nat.add_comm]
  | expense t =>
    simp only [budgetTransactionErrors, specChannelRefs, specPoolRefs, List.length_append,
      orphanedItemErrors_length, List.countP_cons, List.countP_nil]
    by_cases h : t.channelId ∈ C <;> simp [h, Nat.add_comm]
  | transfer t =>
    simp only [budgetTransactionErrors, specChannelRefs, specPoolRefs, List.length_append,
      orphanedItemErrors_length, List.countP_cons, List.countP_nil, List.countP_append]
    by_cases h1 : t.sourceChannelId ∈ C <;> by_cases h2 : t.destinationChannelId ∈ C <;>
      simp [h1, h2] <;> omega

/-- The per-transaction loop body of validateBudgetIntegrity produces no
error exactly when every channel and pool reference of the transaction is
in the corresponding active set. -/

theorem budgetTransactionErrors_eq_nil (P C : List String) (t : Transaction) :
    budgetTransactionErrors P C t = []
      ↔ (∀ c ∈ specChannelRefs t, c ∈ C) ∧ (∀ p ∈ specPoolRefs t, p ∈ P) := by
  cases t with
  | income t =>
    simp only [budgetTransactionErrors, specChannelRefs, specPoolRefs, List.append_eq_nil,
      orphanedItemErrors_eq_nil]
    by_cases h : t.channelId ∈ C <;> simp [h]
  | expense t =>
    simp only [budgetTransactionErrors, specChannelRefs, specPoolRefs, List.append_eq_nil,
      orphanedItemErrors_eq_nil]
    by_cases h : t.channelId ∈ C <;> simp [h]
  | transfer t =>
    simp only [budgetTransactionErrors, specChannelRefs, specPoolRefs, List.append_eq_nil,
      orphanedItemErrors_eq_nil, List.mem_append]
    by_cases h1 : t.sourceChannelId ∈ C <;> by_cases h2 : t.destinationChannelId ∈ C <;>
      (simp [h1, h2]; try aesop)

/-- Every per-strategy error has the orphaned-reference code. -/

theorem strategyOrphanErrors_code (P : List String) (s : AllocationStrategy)
    (e : ValidationError) (he : e ∈ strategyOrphanErrors P s) :
    e.code = .DATA_INTEGRITY_ORPHANED_REFERENCE := by
  obtain ⟨a, _ha, hsome⟩ := List.mem_filterMap.mp he
  by_cases h : a.poolId ∈ P
  · rw [if_pos h] at hsome
    cases hsome
  · rw [if_neg h] at hsome
    cases hsome
    rfl

/-- Length of the per-strategy error list: one error per allocation whose
pool id is absent from the active set. -/

theorem strategyOrphanErrors_length (P : List String) (s : AllocationStrategy) :
    (strategyOrphanErrors P s).length
      = s.allocations.countP (fun a => decide (a.poolId ∉ P)) := by
  unfold strategyOrphanErrors
  induction s.allocations with
  | nil => rfl
  | cons a rest ih =>
    rw [List.filterMap_cons, List.countP_cons]
    by_cases h : a.poolId ∈ P
    · rw [if_pos h]
      simp [h, ih]
    · rw [if_neg h]
      simp [h, ih]

/-- The per-strategy error list is empty exactly when every allocation pool
id is in the active set. -/

theorem strategyOrphanErrors_eq_nil (P : List String) (s : AllocationStrategy) :
    strategyOrphanErrors P s = [] ↔ ∀ a ∈ s.allocations, a.poolId ∈ P := by
  unfold strategyOrphanErrors
  rw [List.filterMap_eq_nil_iff]
  constructor
  · intro h a ha
    by_contra hmem
    have := h a ha
    rw [if_neg hmem] at this
    cases this
  · intro h a ha
    rw [if_pos (h a ha)]

/-- Length of a flatMap as the sum of the lengths of the pieces. -/

theorem length_flatMap_sum {α β : Type} (f : α → List β) (l : List α) :
    (l.flatMap f).length = (l.map (fun a => (f a).length)).sum := by
  induction l with
  | nil => rfl
  | cons a rest ih => simp [List.flatMap_cons, ih]

/-- C5: validateBudgetIntegrity emits only DATA_INTEGRITY_ORPHANED_REFERENCE
errors, exactly one for each transaction channel reference outside the
active-channel set, one for each transaction allocation pool reference
outside the active-pool set and one for each allocation pool reference of
an active strategy outside the active-pool set — inactive strategies are
not checked — and the result is valid exactly when no reference misses. -/

theorem C5_validateBudgetIntegrity_spec (pools : List Pool) (channels : List Channel)
    (transactions : List Transaction) (allocationStrategies : List AllocationStrategy) :
    ((validateBudgetIntegrity pools channels transactions allocationStrategies).errors.all
        (fun e => decide (e.code = .DATA_INTEGRITY_ORPHANED_REFERENCE)) = true)
    ∧ ((validateBudgetIntegrity pools channels transactions allocationStrategies).errors.length
        = (transactions.map (fun t =>
            (specChannelRefs t).countP (fun c => decide (c ∉ activeChannelIds channels))
            + (specPoolRefs t).countP (fun p => decide (p ∉ activePoolIds pools)))).sum
          + ((allocationStrategies.filter (·.isActive)).map (fun s =>
              s.allocations.countP (fun a => decide (a.poolId ∉ activePoolIds pools)))).sum)
    ∧ ((validateBudgetIntegrity pools channels transactions allocationStrategies).isValid = true
        ↔ (∀ t ∈ transactions,
              (∀ c ∈ specChannelRefs t, c ∈ activeChannelIds channels)
              ∧ (∀ p ∈ specPoolRefs t, p ∈ activePoolIds pools))
          ∧ (∀ s ∈ allocationStrategies, s.isActive = true →
              ∀ a ∈ s.allocations, a.poolId ∈ activePoolIds pools)) := by
  refine ⟨?_, ?_, ?_⟩
  · rw [List.all_eq_true]
    intro e he
    simp only [validateBudgetIntegrity, List.mem_append] at he
    rcases he with h | h
    · obtain ⟨t, _ht, hmem⟩ := List.mem_flatMap.mp h
      exact decide_eq_true
        (budgetTransactionErrors_code (activePoolIds pools) (activeChannelIds channels) t e hmem)
    · obtain ⟨s, _hs, hmem⟩ := List.mem_flatMap.mp h
      exact decide_eq_true (strategyOrphanErrors_code (activePoolIds pools) s e hmem)
  · simp only [validateBudgetIntegrity, List.length_append, length_flatMap_sum]
    have h1 : (fun a =>
          (budgetTransactionErrors (activePoolIds pools) (activeChannelIds channels) a).length)
        = fun t => (specChannelRefs t).countP (fun c => decide (c ∉ activeChannelIds channels))
            + (specPoolRefs t).countP (fun p => decide (p ∉ activePoolIds pools)) :=
      funext (fun t =>
        budgetTransactionErrors_length (activePoolIds pools) (activeChannelIds channels) t)
    have h2 : (fun a => (strategyOrphanErrors (activePoolIds pools) a).length)
        = fun s => s.allocations.countP (fun a => decide (a.poolId ∉ activePoolIds pools)) :=
      funext (fun s => strategyOrphanErrors_length (activePoolIds pools) s)
    rw [h1, h2]
  · simp only [validateBudgetIntegrity, List.isEmpty_iff, List.append_eq_nil,
      List.flatMap_eq_nil_iff]
    constructor
    · rintro ⟨htx, hst⟩
      refine ⟨?_, ?_⟩
      · intro t ht
        exact (budgetTransactionErrors_eq_nil (activePoolIds pools)
          (activeChannelIds channels) t).mp (htx t ht)
      · intro s hs hactive a ha
        have hmem : s ∈ allocationStrategies.filter (·.isActive) :=
          List.mem_filter.mpr ⟨hs, hactive⟩
        exact (strategyOrphanErrors_eq_nil (activePoolIds pools) s).mp (hst s hmem) a ha
    · rintro ⟨htx, hst⟩
      refine ⟨?_, ?_⟩
      · intro t ht
        exact (budgetTransactionErrors_eq_nil (activePoolIds pools)
          (activeChannelIds channels) t).mpr (htx t ht)
      · intro s hs
        obtain ⟨hmem, hactive⟩ := List.mem_filter.mp hs
        exact (strategyOrphanErrors_eq_nil (activePoolIds pools) s).mpr (hst s hmem hactive)

/-- Lists of the same length are empty together. -/

theorem isEmpty_eq_of_length_eq {α β : Type} (l₁ : List α) (l₂ : List β)
    (h : l₁.length = l₂.length) : l₁.isEmpty = l₂.isEmpty := by
  cases l₁ <;> cases l₂ <;> simp_all

/-- The pool-reference error lists of the two integrity entry points
correspond element by element. -/

theorem forall2_pool_errors (txId : String) (P : List String)
    (items : List PoolAllocationItem) :
    List.Forall₂ correspondsTo
      (items.filterMap (fun item =>
        if item.poolId ∈ P then none
        else some { code := .TRANSACTION_POOL_NOT_FOUND,
                    details := [("poolId", item.poolId)] }))
      (orphanedItemErrors txId P items) := by
  unfold orphanedItemErrors
  induction items with
  | nil => exact List.Forall₂.nil
  | cons i rest ih =>
    rw [List.filterMap_cons, List.filterMap_cons]
    by_cases h : i.poolId ∈ P
    · rw [if_pos h, if_pos h]
      exact ih
    · rw [if_neg h, if_neg h]
      refine List.Forall₂.cons ?_ ih
      refine ⟨rfl, ?_, Or.inr ⟨rfl, ?_⟩⟩
      · unfold errorRefs orphanedPoolError
        simp [List.lookup]
      · simp [List.lookup]

/-- A missing channel reference produces corresponding errors on both
sides. -/

theorem correspondsTo_channel (txId channelId : String) :
    correspondsTo
      { code := .TRANSACTION_CHANNEL_NOT_FOUND, details := [("channelId", channelId)] }
      (orphanedChannelError txId channelId) := by
  refine ⟨rfl, ?_, Or.inl ⟨rfl, ?_⟩⟩
  · unfold errorRefs orphanedChannelError
    simp [List.lookup]
  · simp [List.lookup]

/-- C6: on any transaction and any active-pool and active-channel sets,
validateTransactionIntegrity flags exactly the references that the
per-transaction portion of validateBudgetIntegrity flags, in the same
order and number, with TRANSACTION_CHANNEL_NOT_FOUND and
TRANSACTION_POOL_NOT_FOUND in place of DATA_INTEGRITY_ORPHANED_REFERENCE,
and both entry points agree on the verdict. -/

theorem C6_transactionIntegrity_refines_budgetIntegrity
    (pools : List Pool) (channels : List Channel) (t : Transaction) :
    List.Forall₂ correspondsTo
      (validateTransactionIntegrity t (activePoolIds pools) (activeChannelIds channels)).errors
      (validateBudgetIntegrity pools channels [t] []).errors
    ∧ (validateTransactionIntegrity t (activePoolIds pools) (activeChannelIds channels)).isValid
      = (validateBudgetIntegrity pools channels [t] []).isValid := by
  have herr : (validateBudgetIntegrity pools channels [t] []).errors
      = budgetTransactionErrors (activePoolIds pools) (activeChannelIds channels) t := by
    simp [validateBudgetIntegrity]
  have hforall : List.Forall₂ correspondsTo
      (validateTransactionIntegrity t (activePoolIds pools) (activeChannelIds channels)).errors
      (budgetTransactionErrors (activePoolIds pools) (activeChannelIds channels) t) := by
    unfold validateTransactionIntegrity budgetTransactionErrors
    cases t with
    | income t =>
      refine List.rel_append ?_ (forall2_pool_errors t.id (activePoolIds pools)
        t.allocationBreakdown.items)
      by_cases h : t.channelId ∈ activeChannelIds channels
      · rw [if_pos h, if_pos h]
        exact List.Forall₂.nil
      · rw [if_neg h, if_neg h]
        exact List.Forall₂.cons (correspondsTo_channel t.id t.channelId) List.Forall₂.nil
    | expense t =>
      refine List.rel_append ?_ (forall2_pool_errors t.id (activePoolIds pools)
        t.allocationBreakdown.items)
      by_cases h : t.channelId ∈ activeChannelIds channels
      · rw [if_pos h, if_pos h]
        exact List.Forall₂.nil
      · rw [if_neg h, if_neg h]
        exact List.Forall₂.cons (correspondsTo_channel t.id t.channelId) List.Forall₂.nil
    | transfer t =>
      refine List.rel_append (List.rel_append (List.rel_append ?_ ?_)
        (forall2_pool_errors t.id (activePoolIds pools) t.sourceAllocation.items))
        (forall2_pool_errors t.id (activePoolIds pools) t.destinationAllocation.items)
      · by_cases h : t.sourceChannelId ∈ activeChannelIds channels
        · rw [if_pos h, if_pos h]
          exact List.Forall₂.nil
        · rw [if_neg h, if_neg h]
          exact List.Forall₂.cons (correspondsTo_channel t.id t.sourceChannelId) List.Forall₂.nil
      · by_cases h : t.destinationChannelId ∈ activeChannelIds channels
        · rw [if_pos h, if_pos h]
          exact List.Forall₂.nil
        · rw [if_neg h, if_neg h]
          exact List.Forall₂.cons (correspondsTo_channel t.id t.destinationChannelId)
            List.Forall₂.nil
  constructor
  · rw [herr]
    exact hforall
  · have hlen := hforall.length_eq
    have hts : (validateTransactionIntegrity t (activePoolIds pools)
        (activeChannelIds channels)).isValid
        = (validateTransactionIntegrity t (activePoolIds pools)
            (activeChannelIds channels)).errors.isEmpty := by
      unfold validateTransactionIntegrity
      cases t <;> rfl
    have hbs : (validateBudgetIntegrity pools channels [t] []).isValid
        = (validateBudgetIntegrity pools channels [t] []).errors.isEmpty := rfl
    rw [hts, hbs, herr]
    exact isEmpty_eq_of_length_eq _ _ hlen

/-- Witness for C1 at the Scenario D inputs. -/

theorem C1_calculateMaxCreditPayment_spec_witness :
    calculateMaxCreditPayment scenarioDAllocation scenarioDAvailable scenarioDDebt = 200 :=
  C1_calculateMaxCreditPayment_spec.2

/-- Witness for C4 at the Scenario E transfer: the self-transfer error is
present. -/

theorem C4_selfTransfer_invalid_state_iff_witness :
    ∃ e ∈ (validateTransferTransaction 0 scenarioETransfer).errors,
      e.code = ErrorCode.DATA_INTEGRITY_INVALID_STATE :=
  (C4_selfTransfer_invalid_state_iff 0 scenarioETransfer).mpr ⟨rfl, rfl⟩

/-- Witness for C5: with no pools and no channels, the orphan expense is
flagged once for its channel and once for its pool. -/

theorem C5_validateBudgetIntegrity_spec_witness :
    (validateBudgetIntegrity [] [] [.expense orphanExpense] []).errors.length = 2
    ∧ (validateBudgetIntegrity [] [] [.expense orphanExpense] []).isValid = false := by
  have h := C5_validateBudgetIntegrity_spec [] [] [.expense orphanExpense] []
  constructor
  · rw [h.2.1]
    decide
  · rcases hval : (validateBudgetIntegrity [] [] [.expense orphanExpense] []).isValid with _ | _
    · rfl
    · exfalso
      have h2 := (h.2.2.mp hval).1 (.expense orphanExpense) (by simp)
      have h3 := h2.1 "ghost-channel" (by simp [specChannelRefs, orphanExpense])
      simp [activeChannelIds] at h3

/-- Witness for C6: the two entry points agree on the verdict for the
orphan income against empty active sets. -/

theorem C6_transactionIntegrity_refines_budgetIntegrity_witness :
    (validateTransactionIntegrity (.income orphanIncome)
        (activePoolIds []) (activeChannelIds [])).isValid
      = (validateBudgetIntegrity [] [] [.income orphanIncome] []).isValid :=
  (C6_transactionIntegrity_refines_budgetIntegrity [] [] (.income orphanIncome)).2

/-- Witness for C8: one negative balance produces exactly one
BALANCE_NEGATIVE error and an invalid result. -/

theorem C8_validateBalanceConsistency_spec_witness :
    (validateBalanceConsistency [negativeBalance]).errors.countP
        (fun e => decide (e.code = .BALANCE_NEGATIVE)) = 1
    ∧ (validateBalanceConsistency [negativeBalance]).isValid = false := by
  have h := C8_validateBalanceConsistency_spec [negativeBalance]
  constructor
  · rw [h.1]
    decide
  · rcases hval : (validateBalanceConsistency [negativeBalance]).isValid with _ | _
    · rfl
    · exfalso
      have h2 := (h.2.2.2.mp hval) negativeBalance (by simp)
      norm_num [negativeBalance] at h2

/-- Witness for C9: the Scenario F batch leaves no valid row. -/

theorem C9_import_amount_validation_witness :
    (validateImportData (fun _ => true) [scenarioFRow1, scenarioFRow2, scenarioFRow3]).valid
      = [] :=
  (C9_import_amount_validation (fun _ => true) []).2.2.2.1

end Budget
